import Mathlib

/-!
Shallow embedding of the dispatch core of the ride-hailing backend
(driver registry, trip fare calculation, dispatch worker, payment
pipeline, idempotency middleware, Redis geospatial index), together
with theorems about its behaviour.

Conventions of the embedding:
 - JS numbers are modelled as exact rationals; timestamps are integers
   in milliseconds since the epoch.
 - Number.prototype.toFixed(2) followed by parseFloat is modelled as
   rounding half-up to two decimal places on the exact value.
 - JS truthiness of an optional numeric field (undefined, null and 0
   are falsy) is modelled explicitly where the source relies on it.
 - Database rows are records; a transactional function maps the locked
   rows to their updated values or to an error.
-/

namespace RideHailing

/-- Rounding to two decimal places, half-up (ties go to the larger value),
as toFixed(2) behaves on an exactly represented decimal value. -/
def round2 (q : ℚ) : ℚ := (⌊q * 100 + 1/2⌋ : ℚ) / 100

/-- JS fallback idiom v || dflt on an optional numeric value:
undefined and 0 both select the default. -/
def orFalsy (v : Option ℚ) (dflt : ℚ) : ℚ :=
  match v with
  | some x => if x = 0 then dflt else x
  | none => dflt

/-! ## Tiers and fare calculation (trip.service.js) -/

inductive Tier
  | ECONOMY
  | PREMIUM
  | LUXURY
deriving DecidableEq

/-- Per-tier rate entries of the TIER_RATES table. -/
structure TierRates where
  base : ℚ
  per_km : ℚ
  per_min : ℚ
deriving DecidableEq

/-- The TIER_RATES table of trip.service.js. -/
def TIER_RATES : Tier → TierRates
  | .ECONOMY => { base := 5.0, per_km := 1.5, per_min := 0.25 }
  | .PREMIUM => { base := 8.0, per_km := 2.5, per_min := 0.40 }
  | .LUXURY => { base := 15.0, per_km := 4.0, per_min := 0.60 }

/-- The breakdown object returned by calculateFare. -/
structure FareBreakdown where
  base : ℚ
  distance : ℚ
  time : ℚ
  surge : ℚ
deriving DecidableEq

/-- The value returned by calculateFare. -/
structure FareCalc where
  base_fare : ℚ
  total_fare : ℚ
  breakdown : FareBreakdown
deriving DecidableEq

/-- calculateFare of trip.service.js. The stored base_fare is the rounded
tier base rate; the stored total_fare is the rounded surge-multiplied
subtotal. -/
def calculateFare (distanceKm durationSec : ℚ) (tier : Tier) (surgeMultiplier : ℚ) : FareCalc :=
  let rates := TIER_RATES tier
  let durationMin := durationSec / 60
  let baseFare := rates.base
  let distanceFare := distanceKm * rates.per_km
  let timeFare := durationMin * rates.per_min
  let subtotal := baseFare + distanceFare + timeFare
  let total := subtotal * surgeMultiplier
  { base_fare := round2 baseFare
    total_fare := round2 total
    breakdown := { base := baseFare, distance := distanceFare, time := timeFare, surge := surgeMultiplier } }

/-! ## Trip state machine (stateMachine.js) and endTrip (trip.service.js) -/

inductive TripStatus
  | CREATED
  | STARTED
  | PAUSED
  | ENDED
  | CANCELLED
deriving DecidableEq

/-- TRIP_TRANSITIONS of stateMachine.js. -/
def TRIP_TRANSITIONS : TripStatus → List TripStatus
  | .CREATED => [.STARTED, .CANCELLED]
  | .STARTED => [.PAUSED, .ENDED, .CANCELLED]
  | .PAUSED => [.STARTED, .ENDED, .CANCELLED]
  | .ENDED => []
  | .CANCELLED => []

/-- canEndTrip of stateMachine.js. -/
def canEndTrip (s : TripStatus) : Bool :=
  s == .STARTED || s == .PAUSED

inductive DriverStatus
  | OFFLINE
  | AVAILABLE
  | ON_TRIP
deriving DecidableEq

/-- DRIVER_TRANSITIONS of stateMachine.js. -/
def DRIVER_TRANSITIONS : DriverStatus → List DriverStatus
  | .OFFLINE => [.AVAILABLE]
  | .AVAILABLE => [.OFFLINE, .ON_TRIP]
  | .ON_TRIP => [.AVAILABLE, .OFFLINE]

inductive RideStatus
  | REQUESTED
  | MATCHING
  | DRIVER_ASSIGNED
  | COMPLETED
  | CANCELLED
  | EXPIRED
deriving DecidableEq

/-- The columns of a trips row that endTrip reads and writes. -/
structure TripRow where
  status : TripStatus
  started_at : Int
  ended_at : Option Int
  distance_km : Option ℚ
  duration_sec : Option ℚ
  base_fare : Option ℚ
  total_fare : Option ℚ
deriving DecidableEq

/-- The optional request body of the end-trip endpoint. -/
structure EndTripData where
  distance_km : Option ℚ
  duration_sec : Option ℚ
deriving DecidableEq

/-- The rows written by the endTrip transaction: the updated trip row,
the driver status write, the ride status write, and the fare object. -/
structure EndTripResult where
  trip : TripRow
  driver_status : DriverStatus
  ride_status : RideStatus
  fare : FareCalc
deriving DecidableEq

/-- endTrip of trip.service.js, given the locked trip row joined with the
ride tier and surge multiplier. A falsy distance_km falls back to the
mock value 10.5; a falsy duration_sec falls back to the floor of
(now - started_at) in seconds. On success the trip becomes ENDED with
the computed fares, the driver is set AVAILABLE and the ride COMPLETED. -/
def endTrip (trip : TripRow) (tier : Tier) (surge : ℚ) (tripData : EndTripData) (now : Int) :
    Except String EndTripResult :=
  if canEndTrip trip.status then
    let distanceKm := orFalsy tripData.distance_km 10.5
    let durationSec := orFalsy tripData.duration_sec (((now - trip.started_at).fdiv 1000 : Int) : ℚ)
    let fareCalc := calculateFare distanceKm durationSec tier surge
    .ok
      { trip :=
          { trip with
            status := .ENDED
            ended_at := some now
            distance_km := some distanceKm
            duration_sec := some durationSec
            base_fare := some fareCalc.base_fare
            total_fare := some fareCalc.total_fare }
        driver_status := .AVAILABLE
        ride_status := .COMPLETED
        fare := fareCalc }
  else
    .error "Cannot end trip in current state"

/-- A STARTED trip row with no recorded metrics, used as a concrete input. -/
def trip0 : TripRow :=
  { status := .STARTED, started_at := 0, ended_at := none, distance_km := none
    duration_sec := none, base_fare := none, total_fare := none }

example : round2 25 = 25 := by norm_num [round2]
example : round2 ((5 + 10 * 1.5 + (1200 / 60) * 0.25) * 1) = 25 := by norm_num [round2]
example : (calculateFare 10 1200 .ECONOMY 1).total_fare = 25 := by
  norm_num [calculateFare, TIER_RATES, round2]
example : (calculateFare 10.5 1200 .ECONOMY 1).total_fare = 25.75 := by
  norm_num [calculateFare, TIER_RATES, round2]
example : (calculateFare 10 1200 .PREMIUM 2).total_fare = 82 := by
  norm_num [calculateFare, TIER_RATES, round2]

/-! ## Claims C1, C7, C8: fare calculation and fallbacks on trip end -/

/-- Claim C1, counterexample: the claim quantifies over every ended trip, but
ending a trip with distance_km 0 (a value the validation layer accepts) and
duration_sec 1200 on an ECONOMY ride with surge 1.0 stores total_fare 25.75,
because the falsy-or fallback turns the provided 0 into the mock 10.5 km;
the claimed formula yields 10.00. -/
theorem C1_counterexample :
    ((endTrip trip0 Tier.ECONOMY 1 { distance_km := some 0, duration_sec := some 1200 } 1200000).map
      fun r => r.trip.total_fare) = .ok (some 25.75) ∧
    round2 (((TIER_RATES Tier.ECONOMY).base + 0 * (TIER_RATES Tier.ECONOMY).per_km
      + ((1200 : ℚ) / 60) * (TIER_RATES Tier.ECONOMY).per_min) * 1) = 10 ∧
    (25.75 : ℚ) ≠ 10 := by
  refine ⟨?_, by norm_num [round2, TIER_RATES], by norm_num⟩
  simp only [endTrip, trip0, canEndTrip, orFalsy, calculateFare, TIER_RATES, Except.map]
  norm_num [round2]

/-- Claim C1 (amended): for every trip ended with a nonzero distance_km d and a
nonzero duration_sec s, the stored total_fare equals
(base(t) + d per_km(t) + (s/60) per_min(t)) times the surge multiplier,
rounded half-up to two decimal places, with the ECONOMY/PREMIUM/LUXURY rate
table of the source; zero or missing inputs instead trigger the fallbacks of
claim C8. -/
theorem C1_amended (trip : TripRow) (tier : Tier) (surge d s : ℚ) (now : Int)
    (res : EndTripResult) (hd : d ≠ 0) (hs : s ≠ 0)
    (h : endTrip trip tier surge { distance_km := some d, duration_sec := some s } now = .ok res) :
    res.trip.total_fare = some (round2 (((TIER_RATES tier).base + d * (TIER_RATES tier).per_km
      + (s / 60) * (TIER_RATES tier).per_min) * surge)) := by
  rw [endTrip] at h
  split at h
  · rw [Except.ok.injEq] at h
    subst h
    simp [orFalsy, hd, hs, calculateFare]
  · exact absurd h (by simp)

/-- The result of ending trip0 with distance 10 km and duration 1200 s on an
ECONOMY ride with surge 1. -/
def res0 : EndTripResult :=
  { trip :=
      { trip0 with
        status := .ENDED
        ended_at := some 1200000
        distance_km := some 10
        duration_sec := some 1200
        base_fare := some (calculateFare 10 1200 .ECONOMY 1).base_fare
        total_fare := some (calculateFare 10 1200 .ECONOMY 1).total_fare }
    driver_status := .AVAILABLE
    ride_status := .COMPLETED
    fare := calculateFare 10 1200 .ECONOMY 1 }

/-- Claim C1 witness: the amended claim applied at the concrete S1 input
(distance 10 km, duration 1200 s, ECONOMY, surge 1.0), whose total fare is
25.00. -/
theorem C1_witness :
    res0.trip.total_fare = some (round2 (((TIER_RATES Tier.ECONOMY).base
      + 10 * (TIER_RATES Tier.ECONOMY).per_km
      + ((1200 : ℚ) / 60) * (TIER_RATES Tier.ECONOMY).per_min) * 1)) ∧
    res0.trip.total_fare = some 25 := by
  have h := C1_amended trip0 Tier.ECONOMY 1 10 1200 1200000 res0
    (by norm_num) (by norm_num) rfl
  refine ⟨h, h.trans ?_⟩
  norm_num [round2, TIER_RATES]

/-- Claim C7, counterexample: ending a trip with distance 10 km and duration
1200 s on an ECONOMY ride with surge 1.0 stores base_fare 5.00 (the rounded
tier base rate), while the pre-surge subtotal claimed to be stored is 25.00. -/
theorem C7_counterexample :
    ((endTrip trip0 Tier.ECONOMY 1 { distance_km := some 10, duration_sec := some 1200 } 1200000).map
      fun r => r.trip.base_fare) = .ok (some 5) ∧
    (TIER_RATES Tier.ECONOMY).base + 10 * (TIER_RATES Tier.ECONOMY).per_km
      + ((1200 : ℚ) / 60) * (TIER_RATES Tier.ECONOMY).per_min = 25 ∧
    (5 : ℚ) ≠ 25 := by
  refine ⟨?_, by norm_num [TIER_RATES], by norm_num⟩
  simp only [endTrip, trip0, canEndTrip, orFalsy, calculateFare, TIER_RATES, Except.map]
  norm_num [round2]

/-- Claim C7 (amended): for every ended trip the stored base_fare is the
rounded tier base rate, not the pre-surge subtotal; the stored total_fare is
the subtotal (computed from the fallback-resolved distance and duration)
multiplied by the surge multiplier and rounded to two decimal places. -/
theorem C7_amended (trip : TripRow) (tier : Tier) (surge : ℚ) (tripData : EndTripData)
    (now : Int) (res : EndTripResult)
    (h : endTrip trip tier surge tripData now = .ok res) :
    res.trip.base_fare = some (round2 (TIER_RATES tier).base) ∧
    res.trip.total_fare = some (round2 (((TIER_RATES tier).base
      + orFalsy tripData.distance_km 10.5 * (TIER_RATES tier).per_km
      + (orFalsy tripData.duration_sec (((now - trip.started_at).fdiv 1000 : Int) : ℚ) / 60)
        * (TIER_RATES tier).per_min) * surge)) := by
  rw [endTrip] at h
  split at h
  · rw [Except.ok.injEq] at h
    subst h
    exact ⟨rfl, rfl⟩
  · exact absurd h (by simp)

/-- Claim C7 witness: the amended claim applied at the concrete input of the
counterexample; the stored base_fare is 5.00 and total_fare 25.00. -/
theorem C7_witness :
    res0.trip.base_fare = some (round2 (TIER_RATES Tier.ECONOMY).base) ∧
    res0.trip.total_fare = some (round2 (((TIER_RATES Tier.ECONOMY).base
      + orFalsy (some 10) 10.5 * (TIER_RATES Tier.ECONOMY).per_km
      + (orFalsy (some 1200) (((1200000 - trip0.started_at).fdiv 1000 : Int) : ℚ) / 60)
        * (TIER_RATES Tier.ECONOMY).per_min) * 1)) :=
  C7_amended trip0 Tier.ECONOMY 1 { distance_km := some 10, duration_sec := some 1200 }
    1200000 res0 rfl

/-- Claim C8, counterexample: ending a trip with distance_km omitted stores
distance 10.5 (the mock default of the source), not the claimed fallback 0. -/
theorem C8_counterexample :
    ((endTrip trip0 Tier.ECONOMY 1 { distance_km := none, duration_sec := some 1200 } 1200000).map
      fun r => r.trip.distance_km) = .ok (some 10.5) ∧
    (10.5 : ℚ) ≠ 0 := by
  constructor
  · simp only [endTrip, trip0, canEndTrip, orFalsy, calculateFare, TIER_RATES, Except.map]
    norm_num
  · norm_num

/-- Claim C8 (amended): when end is called with distance_km and duration_sec
omitted, the stored distance falls back to the mock value 10.5 km (not 0), the
stored duration is derived as the floor of (now - started_at) in seconds, and
the fare is computed from these fallback values. -/
theorem C8_amended (trip : TripRow) (tier : Tier) (surge : ℚ) (now : Int)
    (res : EndTripResult)
    (h : endTrip trip tier surge { distance_km := none, duration_sec := none } now = .ok res) :
    res.trip.distance_km = some 10.5 ∧
    res.trip.duration_sec = some (((now - trip.started_at).fdiv 1000 : Int) : ℚ) ∧
    res.trip.total_fare = some (round2 (((TIER_RATES tier).base
      + 10.5 * (TIER_RATES tier).per_km
      + ((((now - trip.started_at).fdiv 1000 : Int) : ℚ) / 60) * (TIER_RATES tier).per_min)
      * surge)) := by
  rw [endTrip] at h
  split at h
  · rw [Except.ok.injEq] at h
    subst h
    exact ⟨rfl, rfl, rfl⟩
  · exact absurd h (by simp)

/-- The result of ending trip0 with both metrics omitted at time 1200000 ms. -/
def res1 : EndTripResult :=
  { trip :=
      { trip0 with
        status := .ENDED
        ended_at := some 1200000
        distance_km := some (orFalsy none 10.5)
        duration_sec := some (orFalsy none (((1200000 - trip0.started_at).fdiv 1000 : Int) : ℚ))
        base_fare := some (calculateFare (orFalsy none 10.5)
          (orFalsy none (((1200000 - trip0.started_at).fdiv 1000 : Int) : ℚ)) .ECONOMY 1).base_fare
        total_fare := some (calculateFare (orFalsy none 10.5)
          (orFalsy none (((1200000 - trip0.started_at).fdiv 1000 : Int) : ℚ)) .ECONOMY 1).total_fare }
    driver_status := .AVAILABLE
    ride_status := .COMPLETED
    fare := calculateFare (orFalsy none 10.5)
      (orFalsy none (((1200000 - trip0.started_at).fdiv 1000 : Int) : ℚ)) .ECONOMY 1 }

/-- Claim C8 witness: the amended claim applied at trip0 with both metrics
omitted; the stored distance is 10.5 and the stored duration 1200 s. -/
theorem C8_witness :
    res1.trip.distance_km = some 10.5 ∧
    res1.trip.duration_sec = some (((1200000 - trip0.started_at).fdiv 1000 : Int) : ℚ) ∧
    res1.trip.total_fare = some (round2 (((TIER_RATES Tier.ECONOMY).base
      + 10.5 * (TIER_RATES Tier.ECONOMY).per_km
      + ((((1200000 - trip0.started_at).fdiv 1000 : Int) : ℚ) / 60)
        * (TIER_RATES Tier.ECONOMY).per_min) * 1)) :=
  C8_amended trip0 Tier.ECONOMY 1 1200000 res1 rfl

/-! ## Claims C4, C5: updateDriverStatus (driver.service.js) -/

/-- JS truthiness of an optional numeric column. -/
def numTruthy : Option ℚ → Bool
  | none => false
  | some x => x != 0

/-- The columns of a drivers row read and written by updateDriverStatus,
together with the membership of the driver in the drivers:geo index. -/
structure DriverRow where
  status : DriverStatus
  latitude : Option ℚ
  longitude : Option ℚ
  inGeo : Bool
deriving DecidableEq

/-- updateDriverStatus of driver.service.js, as the effects of a committed
update: the service code itself performs no transition validation, writes the
status column, then updates the geo index: removal on OFFLINE, insertion on
AVAILABLE when both coordinates are truthy, and no geo change on ON_TRIP.
The store-level transition trigger that can abort the UPDATE before these
effects happen is modelled by updateDriverStatusTx below. -/
def updateDriverStatus (driver : DriverRow) (status : DriverStatus) : DriverRow :=
  let d := { driver with status := status }
  if status == .OFFLINE then
    { d with inGeo := false }
  else if status == .AVAILABLE && numTruthy d.latitude && numTruthy d.longitude then
    { d with inGeo := true }
  else
    d

/-- An AVAILABLE driver with known coordinates, present in the geo index. -/
def driver0 : DriverRow :=
  { status := .AVAILABLE, latitude := some 37.7749, longitude := some (-122.4194), inGeo := true }

/-- Claim C4, counterexample: an update_status to ON_TRIP on an AVAILABLE
driver leaves the driver in the geospatial index, so after the commit the
driver is present in the index while its status is not AVAILABLE. -/
theorem C4_counterexample :
    (updateDriverStatus driver0 .ON_TRIP).status = .ON_TRIP ∧
    (updateDriverStatus driver0 .ON_TRIP).inGeo = true ∧
    ¬ ((updateDriverStatus driver0 .ON_TRIP).inGeo = true ↔
        (updateDriverStatus driver0 .ON_TRIP).status = .AVAILABLE) := by
  refine ⟨rfl, rfl, ?_⟩
  intro h
  exact absurd (h.mp rfl) (by simp [updateDriverStatus, driver0])

/-- Claim C4 (amended): after update_status the geo entry is removed on a
transition to OFFLINE and inserted on a transition to AVAILABLE when both
coordinates are known and nonzero, but a transition to ON_TRIP leaves geo
membership unchanged, so presence in the index does not imply status
AVAILABLE. -/
theorem C4_amended (d : DriverRow) (t : DriverStatus) :
    (updateDriverStatus d t).status = t ∧
    (t = .OFFLINE → (updateDriverStatus d t).inGeo = false) ∧
    (t = .AVAILABLE → numTruthy d.latitude → numTruthy d.longitude →
      (updateDriverStatus d t).inGeo = true) ∧
    (t = .ON_TRIP → (updateDriverStatus d t).inGeo = d.inGeo) := by
  refine ⟨?_, ?_, ?_, ?_⟩
  · cases t <;> simp [updateDriverStatus]
    split <;> rfl
  · intro ht
    subst ht
    simp [updateDriverStatus]
  · intro ht h1 h2
    subst ht
    simp [updateDriverStatus, h1, h2]
  · intro ht
    subst ht
    simp [updateDriverStatus]

/-- Claim C4 witness: the amended claim applied to driver0 for each target
status. -/
theorem C4_witness :
    (updateDriverStatus driver0 .OFFLINE).inGeo = false ∧
    (updateDriverStatus driver0 .AVAILABLE).inGeo = true ∧
    (updateDriverStatus driver0 .ON_TRIP).inGeo = driver0.inGeo :=
  ⟨(C4_amended driver0 .OFFLINE).2.1 rfl,
   (C4_amended driver0 .AVAILABLE).2.2.1 rfl (by norm_num [driver0, numTruthy])
     (by norm_num [driver0, numTruthy]),
   (C4_amended driver0 .ON_TRIP).2.2.2 rfl⟩

/-- An OFFLINE driver with known coordinates. -/
def driver1 : DriverRow :=
  { status := .OFFLINE, latitude := some 37.7749, longitude := some (-122.4194), inGeo := false }

/-- The condition under which the UPDATE of updateDriverStatus commits, as
enforced by the store trigger driver_state_transition_check of migration
004_state_transition_validation (applied by infra/postgres/init.sql). The
trigger fires only WHEN OLD.status IS DISTINCT FROM NEW.status — so an
update that does not change the status bypasses validation — and otherwise
raises unless the new status is in the allowed list of the driver transition
table, which repeats DRIVER_TRANSITIONS. -/
def driverTransitionTriggerOk (current target : DriverStatus) : Bool :=
  current == target || (DRIVER_TRANSITIONS current).contains target

/-- The full update_status operation against the store: the UPDATE either
commits — applying the service-side effects of updateDriverStatus — or is
aborted by the driver_state_transition_check trigger, in which case the
service re-throws the raised invalid-transition error and the driver row is
unchanged. -/
def updateDriverStatusTx (driver : DriverRow) (status : DriverStatus) :
    Except String DriverRow :=
  if driverTransitionTriggerOk driver.status status then
    .ok (updateDriverStatus driver status)
  else
    .error "Invalid driver state transition"

/-- Claim C5, counterexample: the driver transition table contains no
self-loops, so OFFLINE to OFFLINE is not a table transition, yet
update_status succeeds and writes the row: the store trigger fires only when
the status actually changes, so a no-change update bypasses validation and
no invalid-transition error is raised. -/
theorem C5_counterexample :
    updateDriverStatusTx driver1 .OFFLINE = .ok (updateDriverStatus driver1 .OFFLINE) ∧
    (updateDriverStatus driver1 .OFFLINE).status = .OFFLINE ∧
    DriverStatus.OFFLINE ∉ DRIVER_TRANSITIONS driver1.status := by
  refine ⟨rfl, rfl, ?_⟩
  simp [driver1, DRIVER_TRANSITIONS]

/-- Claim C5 (amended): update_status(id, target) succeeds and writes the
target status if and only if the transition is in the driver transition
table or the target equals the current status: the table is enforced solely
by the store trigger of migration 004, whose WHEN clause skips no-change
updates; on any other out-of-table transition the trigger raises an
invalid-transition error and the driver row is unchanged. -/
theorem C5_amended (d : DriverRow) (t : DriverStatus) :
    ((t = d.status ∨ t ∈ DRIVER_TRANSITIONS d.status) →
      updateDriverStatusTx d t = .ok (updateDriverStatus d t) ∧
      (updateDriverStatus d t).status = t) ∧
    (t ≠ d.status → t ∉ DRIVER_TRANSITIONS d.status →
      updateDriverStatusTx d t = .error "Invalid driver state transition") := by
  constructor
  · intro h
    have hok : driverTransitionTriggerOk d.status t = true := by
      rw [driverTransitionTriggerOk]
      rcases h with h | h
      · rw [h]
        simp
      · have hc : (DRIVER_TRANSITIONS d.status).contains t = true := List.elem_iff.mpr h
        rw [hc]
        simp
    constructor
    · rw [updateDriverStatusTx, if_pos hok]
    · cases t <;> simp [updateDriverStatus]
      split <;> rfl
  · intro h1 h2
    have hko : driverTransitionTriggerOk d.status t = false := by
      rw [driverTransitionTriggerOk]
      have hb1 : (d.status == t) = false := by
        rw [beq_eq_false_iff_ne]
        exact fun he => h1 he.symm
      have hb2 : (DRIVER_TRANSITIONS d.status).contains t = false := by
        cases hc : (DRIVER_TRANSITIONS d.status).contains t with
        | false => rfl
        | true => exact absurd (List.elem_iff.mp hc) h2
      rw [hb1, hb2]
      rfl
    rw [updateDriverStatusTx, hko]
    rfl

/-- Claim C5 witness: the amended claim applied to an OFFLINE driver; the
table transition to AVAILABLE commits and writes, while the out-of-table
transition to ON_TRIP is rejected by the trigger. -/
theorem C5_witness :
    (updateDriverStatusTx driver1 DriverStatus.AVAILABLE
        = .ok (updateDriverStatus driver1 DriverStatus.AVAILABLE) ∧
      (updateDriverStatus driver1 DriverStatus.AVAILABLE).status = DriverStatus.AVAILABLE) ∧
    updateDriverStatusTx driver1 DriverStatus.ON_TRIP
      = .error "Invalid driver state transition" :=
  ⟨(C5_amended driver1 .AVAILABLE).1 (Or.inr (by decide)),
   (C5_amended driver1 .ON_TRIP).2 (by decide) (by decide)⟩

/-! ## Claim C6: the dispatch (matching) worker -/

/-- The columns of a rides row used by the matching worker. -/
structure RideRow where
  id : Nat
  status : RideStatus
  created_at : Int
  assigned_driver_id : Option String
  assigned_at : Option Int
deriving DecidableEq

/-- Insertion into a list sorted by ascending created_at. -/
def insertByCreated (r : RideRow) : List RideRow → List RideRow
  | [] => [r]
  | x :: xs =>
      if r.created_at < x.created_at then r :: x :: xs else x :: insertByCreated r xs

/-- Sorting by ascending created_at (ORDER BY created_at ASC). -/
def sortByCreated : List RideRow → List RideRow
  | [] => []
  | x :: xs => insertByCreated x (sortByCreated xs)

/-- getPendingRides of matching.worker.js: rides in MATCHING created within
the last 5 minutes, oldest first, limited to 10. -/
def getPendingRides (rides : List RideRow) (now : Int) : List RideRow :=
  (sortByCreated (rides.filter
    fun r => r.status == .MATCHING && decide (now - 300000 < r.created_at))).take 10

/-- expireRide of matching.worker.js: set EXPIRED only when still MATCHING. -/
def expireRide (r : RideRow) : RideRow :=
  if r.status == .MATCHING then { r with status := .EXPIRED } else r

/-- attemptDriverAssignment of matching.worker.js for one pending ride: with
no nearby candidates the ride is expired only when older than the 60 s match
timeout; otherwise the candidates are tried in order and the first for which
assignDriver succeeds (abstracted by the assignOk oracle) is written to the
ride. -/
def attemptDriverAssignment (cand : RideRow → List String)
    (assignOk : RideRow → String → Bool) (now : Int) (r : RideRow) : RideRow :=
  match cand r with
  | [] => if decide (60000 < now - r.created_at) then expireRide r else r
  | d :: ds =>
      match (d :: ds).find? (fun c => assignOk r c) with
      | some c => { r with status := .DRIVER_ASSIGNED, assigned_driver_id := some c, assigned_at := some now }
      | none => r

/-- One iteration of processMatchingRides: every ride selected by
getPendingRides goes through attemptDriverAssignment; all other rows are
untouched. -/
def processMatchingRides (rides : List RideRow) (cand : RideRow → List String)
    (assignOk : RideRow → String → Bool) (now : Int) : List RideRow :=
  let pending := getPendingRides rides now
  rides.map fun r =>
    if pending.contains r then attemptDriverAssignment cand assignOk now r else r

/-- A MATCHING ride older than 5 minutes. -/
def rideOld : RideRow :=
  { id := 1, status := .MATCHING, created_at := 0, assigned_driver_id := none, assigned_at := none }

/-- Claim C6, counterexample: a ride that has been MATCHING for 400 s with no
candidates is not selected by the pending query (its age exceeds the 5 minute
cutoff), so the next worker iteration leaves it MATCHING instead of expiring
it. -/
theorem C6_counterexample :
    processMatchingRides [rideOld] (fun _ => []) (fun _ _ => false) 400000 = [rideOld] ∧
    rideOld.status = .MATCHING ∧
    60000 < 400000 - rideOld.created_at := by
  refine ⟨?_, rfl, by norm_num [rideOld]⟩
  simp [processMatchingRides, getPendingRides, rideOld, sortByCreated, insertByCreated]

theorem mem_insertByCreated {r x : RideRow} {l : List RideRow}
    (h : x ∈ insertByCreated r l) : x = r ∨ x ∈ l := by
  induction l with
  | nil => simpa [insertByCreated] using h
  | cons a l ih =>
      rw [insertByCreated] at h
      split at h
      · rcases List.mem_cons.mp h with h1 | h1
        · exact Or.inl h1
        · exact Or.inr h1
      · rcases List.mem_cons.mp h with h1 | h1
        · exact Or.inr (List.mem_cons.mpr (Or.inl h1))
        · rcases ih h1 with h2 | h2
          · exact Or.inl h2
          · exact Or.inr (List.mem_cons.mpr (Or.inr h2))

theorem mem_sortByCreated {x : RideRow} {l : List RideRow}
    (h : x ∈ sortByCreated l) : x ∈ l := by
  induction l with
  | nil =>
      rw [sortByCreated] at h
      exact absurd h (List.not_mem_nil x)
  | cons a l ih =>
      rw [sortByCreated] at h
      rcases mem_insertByCreated h with h1 | h1
      · exact h1 ▸ List.mem_cons_self a l
      · exact List.mem_cons_of_mem a (ih h1)

theorem mem_of_mem_getPendingRides {r : RideRow} {rides : List RideRow} {now : Int}
    (h : r ∈ getPendingRides rides now) : r ∈ rides := by
  have h1 := List.mem_of_mem_take h
  have h2 := mem_sortByCreated h1
  exact List.mem_of_mem_filter h2

theorem status_of_mem_getPendingRides {r : RideRow} {rides : List RideRow} {now : Int}
    (h : r ∈ getPendingRides rides now) : r.status = .MATCHING := by
  have h1 := List.mem_of_mem_take h
  have h2 := List.of_mem_filter (mem_sortByCreated h1)
  simpa using (Bool.and_elim_left h2)

/-- Claim C6 (amended): a ride selected by the pending query (status MATCHING,
created within the last 5 minutes, among the ten oldest such rides) for which
the matching query returns no candidates and whose age exceeds 60 s is
transitioned to EXPIRED by the next worker iteration; a MATCHING ride older
than 5 minutes is never selected and stays MATCHING. -/
theorem C6_amended (rides : List RideRow) (cand : RideRow → List String)
    (assignOk : RideRow → String → Bool) (now : Int) (r : RideRow)
    (hp : r ∈ getPendingRides rides now)
    (hc : cand r = [])
    (ha : 60000 < now - r.created_at) :
    { r with status := RideStatus.EXPIRED } ∈ processMatchingRides rides cand assignOk now := by
  have hmem : r ∈ rides := mem_of_mem_getPendingRides hp
  have hst : r.status = .MATCHING := status_of_mem_getPendingRides hp
  have hstep :
      (if (getPendingRides rides now).contains r then
        attemptDriverAssignment cand assignOk now r else r)
        = { r with status := RideStatus.EXPIRED } := by
    rw [if_pos (by simpa [List.contains] using List.elem_iff.mpr hp)]
    rw [attemptDriverAssignment, hc]
    rw [if_pos (by exact decide_eq_true ha)]
    rw [expireRide, if_pos (by simp [hst])]
  rw [processMatchingRides]
  exact hstep ▸ List.mem_map_of_mem _ hmem

/-- A MATCHING ride 100 s old at time 400000 ms. -/
def rideFresh : RideRow :=
  { id := 2, status := .MATCHING, created_at := 300000, assigned_driver_id := none, assigned_at := none }

/-- Claim C6 witness: the amended claim applied to a 100 s old MATCHING ride
with no candidates; the worker iteration expires it. -/
theorem C6_witness :
    { rideFresh with status := RideStatus.EXPIRED } ∈
      processMatchingRides [rideFresh] (fun _ => []) (fun _ _ => false) 400000 :=
  C6_amended [rideFresh] (fun _ => []) (fun _ _ => false) 400000 rideFresh
    (by simp [getPendingRides, rideFresh, sortByCreated, insertByCreated])
    rfl (by norm_num [rideFresh])

/-! ## Claims C2, C3: payment processing (payment.service.js, outbox.worker.js) -/

inductive PaymentStatus
  | PENDING
  | PROCESSING
  | COMPLETED
  | FAILED
deriving DecidableEq

/-- The columns of a payments row read and written by processPayment and
handleWebhook. -/
structure PaymentRow where
  status : PaymentStatus
  amount : ℚ
  psp_transaction_id : Option String
  psp_response : Option String
  retry_count : Nat
  last_retry_at : Option Int
  next_retry_at : Option Int
  failure_reason : Option String
deriving DecidableEq

/-- RETRY_DELAYS_MS of payment.service.js. -/
def RETRY_DELAYS_MS : List Int := [30000, 120000, 480000]

/-- MAX_RETRIES of payment.service.js. -/
def MAX_RETRIES : Nat := 3

/-- A successful PSP response body. -/
structure PSPResponse where
  transaction_id : String
deriving DecidableEq

/-- Stringification of a PSP response body, standing for JSON.stringify. -/
def pspResponseJson (resp : PSPResponse) : String :=
  "transaction_id=" ++ resp.transaction_id

/-- The indexing idiom RETRY_DELAYS_MS at retryCount minus 1, with the JS
falsy-or fallback to the last delay on overflow. -/
def retryDelayAt (i : Nat) : Int :=
  match RETRY_DELAYS_MS.get? i with
  | some v => if v == 0 then 480000 else v
  | none => 480000

/-- The branch taken by processPayment, mirrored by the outbox worker. -/
inductive ProcessResult
  | alreadyProcessed
  | maxRetriesExceeded
  | processingSent
  | retryScheduled
deriving DecidableEq

/-- processPayment of payment.service.js acting on the locked payment row;
the nondeterministic PSP call outcome is an explicit argument. COMPLETED and
PROCESSING rows are returned untouched; a row at or beyond the retry budget
is marked FAILED; otherwise the PSP outcome either moves the row to
PROCESSING or schedules a backoff retry. -/
def processPayment (payment : PaymentRow) (pspOutcome : Except String PSPResponse)
    (now : Int) : PaymentRow × ProcessResult :=
  if payment.status == .COMPLETED || payment.status == .PROCESSING then
    (payment, .alreadyProcessed)
  else if MAX_RETRIES ≤ payment.retry_count then
    ({ payment with status := .FAILED, failure_reason := some "Max retries exceeded" },
     .maxRetriesExceeded)
  else
    match pspOutcome with
    | .ok resp =>
        ({ payment with
            status := .PROCESSING
            psp_transaction_id := some resp.transaction_id
            psp_response := some (pspResponseJson resp) },
         .processingSent)
    | .error msg =>
        let retryCount := payment.retry_count + 1
        let delayMs := retryDelayAt (retryCount - 1)
        ({ payment with
            retry_count := retryCount
            last_retry_at := some now
            next_retry_at := some (now + delayMs)
            failure_reason := some msg },
         .retryScheduled)

/-- An outbox_events row for a payment aggregate. -/
structure OutboxEvent where
  aggregate_id : Nat
  processed : Bool
deriving DecidableEq

/-- The per-event body of processOutbox in outbox.worker.js: the event is
marked processed exactly when processPayment reports the payment as already
processed or as having exhausted its retries; a PSP send or a scheduled retry
leaves the event unprocessed for the next poll. -/
def processOutboxEvent (payment : PaymentRow) (ev : OutboxEvent)
    (pspOutcome : Except String PSPResponse) (now : Int) : PaymentRow × OutboxEvent :=
  let r := processPayment payment pspOutcome now
  match r.2 with
  | .processingSent => (r.1, ev)
  | .alreadyProcessed => (r.1, { ev with processed := true })
  | .retryScheduled => (r.1, ev)
  | .maxRetriesExceeded => (r.1, { ev with processed := true })

/-- The webhook payload fields read by handleWebhook. -/
structure WebhookData where
  transaction_id : String
  status : String
  payment_id : Nat
deriving DecidableEq

/-- Stringification of the webhook payload, standing for JSON.stringify. -/
def webhookJson (w : WebhookData) : String :=
  "transaction_id=" ++ w.transaction_id ++ ";status=" ++ w.status

/-- handleWebhook of payment.service.js acting on the payment row named by the
payload: the status is overwritten unconditionally from the payload (COMPLETED
exactly when the PSP reports succeeded, FAILED otherwise), along with the
transaction id and the raw response. -/
def handleWebhook (payment : PaymentRow) (w : WebhookData) : PaymentRow :=
  { payment with
    status := if w.status == "succeeded" then .COMPLETED else .FAILED
    psp_transaction_id := some w.transaction_id
    psp_response := some (webhookJson w) }

/-- The outbox update of handleWebhook: every unprocessed event of the payment
aggregate is marked processed. -/
def markOutboxProcessed (events : List OutboxEvent) (paymentId : Nat) : List OutboxEvent :=
  events.map fun ev =>
    if ev.aggregate_id == paymentId && !ev.processed then { ev with processed := true } else ev

/-- A PENDING payment row of amount 42 with no PSP interaction yet. -/
def payment0 : PaymentRow :=
  { status := .PENDING, amount := 42, psp_transaction_id := none, psp_response := none
    retry_count := 0, last_retry_at := none, next_retry_at := none, failure_reason := none }

/-- Claim C2, counterexample: a payment finalized to COMPLETED by a succeeded
webhook is moved to FAILED by a later webhook carrying a non-succeeded status;
the status write of handleWebhook is unconditional, so moves out of COMPLETED
and FAILED are possible. -/
theorem C2_counterexample :
    (handleWebhook payment0 { transaction_id := "txn_1", status := "succeeded", payment_id := 7 }).status
      = .COMPLETED ∧
    (handleWebhook
      (handleWebhook payment0 { transaction_id := "txn_1", status := "succeeded", payment_id := 7 })
      { transaction_id := "txn_1", status := "failed", payment_id := 7 }).status = .FAILED ∧
    PaymentStatus.FAILED ≠ .COMPLETED := by
  refine ⟨rfl, rfl, by decide⟩

/-- Claim C2 (amended): the webhook writes the payment status as a function of
the payload alone, so re-delivering the same webhook is idempotent; but a
later webhook with a different outcome overwrites a COMPLETED or FAILED
status, hence moves out of PROCESSING are not irreversible. -/
theorem C2_amended (payment : PaymentRow) (w : WebhookData) :
    handleWebhook (handleWebhook payment w) w = handleWebhook payment w ∧
    (handleWebhook payment w).status =
      (if w.status == "succeeded" then .COMPLETED else .FAILED) := by
  constructor
  · rw [handleWebhook, handleWebhook]
  · rfl

/-- A payment row finalized to FAILED by a webhook, with no retries spent. -/
def paymentFailed : PaymentRow :=
  { status := .FAILED, amount := 42, psp_transaction_id := some "txn_1"
    psp_response := some "transaction_id=txn_1;status=failed"
    retry_count := 0, last_retry_at := none, next_retry_at := none
    failure_reason := none }

/-- Claim C3, counterexample: re-invoking the outbox path on a FAILED payment
whose retry_count is below the budget calls the PSP again and, on acceptance,
rewrites the row to PROCESSING while leaving the outbox row unprocessed; the
payment row does not stay unchanged. -/
theorem C3_counterexample :
    (processOutboxEvent paymentFailed { aggregate_id := 7, processed := false }
      (.ok { transaction_id := "txn_2" }) 0).1.status = .PROCESSING ∧
    (processOutboxEvent paymentFailed { aggregate_id := 7, processed := false }
      (.ok { transaction_id := "txn_2" }) 0).2.processed = false ∧
    paymentFailed.status = .FAILED ∧
    PaymentStatus.PROCESSING ≠ .FAILED := by
  refine ⟨rfl, rfl, rfl, by decide⟩

/-- Claim C3 (amended): for a payment already PROCESSING or COMPLETED,
re-invoking the outbox path leaves the payment row unchanged and only marks
the outbox row processed; a FAILED payment below the retry budget is instead
re-sent to the PSP. -/
theorem C3_amended (payment : PaymentRow) (ev : OutboxEvent)
    (pspOutcome : Except String PSPResponse) (now : Int)
    (h : payment.status = .PROCESSING ∨ payment.status = .COMPLETED) :
    processOutboxEvent payment ev pspOutcome now = (payment, { ev with processed := true }) := by
  have hb : (payment.status == PaymentStatus.COMPLETED
      || payment.status == PaymentStatus.PROCESSING) = true := by
    rcases h with h1 | h1 <;> rw [h1] <;> rfl
  simp only [processOutboxEvent, processPayment, hb, if_true]

/-- A payment row sitting in PROCESSING awaiting its webhook. -/
def paymentProcessing : PaymentRow :=
  { status := .PROCESSING, amount := 42, psp_transaction_id := some "txn_1"
    psp_response := some "transaction_id=txn_1", retry_count := 1
    last_retry_at := some 0, next_retry_at := some 30000, failure_reason := some "PSP_NETWORK_ERROR" }

/-- Claim C3 witness: the amended claim applied to a PROCESSING payment with
an unprocessed outbox event and an accepting PSP. -/
theorem C3_witness :
    processOutboxEvent paymentProcessing { aggregate_id := 7, processed := false }
      (.ok { transaction_id := "txn_3" }) 5000
      = (paymentProcessing, { aggregate_id := 7, processed := true }) :=
  C3_amended paymentProcessing { aggregate_id := 7, processed := false }
    (.ok { transaction_id := "txn_3" }) 5000 (Or.inl rfl)

/-! ## Claim C9: idempotency middleware (idempotency.middleware.js) -/

/-- A cached idempotency record: the Redis key, the stored response body and
the TTL it was stored with. -/
structure CacheEntry where
  key : String
  body : String
  ttl : Nat
deriving DecidableEq

/-- Lookup of a key in the idempotency cache. -/
def cacheLookup (cache : List CacheEntry) (k : String) : Option String :=
  match cache.find? (fun e => e.key == k) with
  | some e => some e.body
  | none => none

/-- The TTL used by the middleware when storing a response body. -/
def IDEMPOTENCY_TTL : Nat := 300

/-- A JSON response as sent by the request pipeline: the downstream code ends
either in a controller res.json (success) or in the error middleware
res.status(code).json (failure); both calls go through the json method that
the idempotency middleware overrides. -/
inductive HandlerOutcome
  | success (status : Nat) (body : String)
  | failure (status : Nat) (body : String)
deriving DecidableEq

/-- An HTTP response: status code and JSON body. -/
structure HttpResponse where
  status : Nat
  body : String
deriving DecidableEq

/-- The response the downstream pipeline sends for a given outcome. -/
def outcomeResponse : HandlerOutcome → HttpResponse
  | .success s b => { status := s, body := b }
  | .failure s b => { status := s, body := b }

/-- The idempotency middleware around one request: with no Idempotency-Key the
handler runs untouched; with a key and a cache hit the cached body is replayed
with status 200 and the handler never runs; with a key and a cache miss the
overridden res.json stores whatever body the pipeline sends, success or error,
under the idem: key with TTL 300. -/
def handleRequest (cache : List CacheEntry) (idemKey : Option String)
    (handler : HandlerOutcome) : List CacheEntry × HttpResponse :=
  match idemKey with
  | none => (cache, outcomeResponse handler)
  | some k =>
      match cacheLookup cache ("idem:" ++ k) with
      | some cached => (cache, { status := 200, body := cached })
      | none =>
          ({ key := "idem:" ++ k, body := (outcomeResponse handler).body,
             ttl := IDEMPOTENCY_TTL } :: cache,
           outcomeResponse handler)

/-- Claim C9, counterexample: a request carrying an Idempotency-Key whose
handler fails with a 500 error response still has its error body stored in the
cache with TTL 300; storage is not restricted to 2xx responses. -/
theorem C9_counterexample :
    handleRequest [] (some "K") (.failure 500 "internal-error-body")
      = ([{ key := "idem:K", body := "internal-error-body", ttl := 300 }],
         { status := 500, body := "internal-error-body" }) ∧
    cacheLookup (handleRequest [] (some "K") (.failure 500 "internal-error-body")).1 "idem:K"
      = some "internal-error-body" ∧
    ¬ (200 ≤ 500 ∧ 500 < 300) := by
  refine ⟨rfl, rfl, by decide⟩

/-- Claim C9 (amended): on a cache hit the cached body is returned verbatim
with status 200 independently of the handler, which never runs; on a cache
miss the response body sent by the pipeline is stored with TTL 300 whether the
response is a success or an error, so error responses are cached too. -/
theorem C9_amended (cache : List CacheEntry) (k : String) (handler : HandlerOutcome) :
    (∀ b, cacheLookup cache ("idem:" ++ k) = some b →
      handleRequest cache (some k) handler = (cache, { status := 200, body := b })) ∧
    (cacheLookup cache ("idem:" ++ k) = none →
      handleRequest cache (some k) handler =
        ({ key := "idem:" ++ k, body := (outcomeResponse handler).body,
           ttl := IDEMPOTENCY_TTL } :: cache,
         outcomeResponse handler)) := by
  constructor
  · intro b hb
    rw [handleRequest, hb]
  · intro hnone
    rw [handleRequest, hnone]

/-- Claim C9 witness: the amended claim applied on an empty cache; a 201
success body is stored under the key with TTL 300, and a second request with
the same key replays that body with status 200. -/
theorem C9_witness :
    handleRequest [] (some "K2") (.success 201 "ride-body")
      = ([{ key := "idem:K2", body := "ride-body", ttl := IDEMPOTENCY_TTL }],
         { status := 201, body := "ride-body" }) ∧
    handleRequest [{ key := "idem:K2", body := "ride-body", ttl := IDEMPOTENCY_TTL }]
      (some "K2") (.failure 404 "other")
      = ([{ key := "idem:K2", body := "ride-body", ttl := IDEMPOTENCY_TTL }],
         { status := 200, body := "ride-body" }) :=
  ⟨(C9_amended [] "K2" (.success 201 "ride-body")).2 rfl,
   (C9_amended [{ key := "idem:K2", body := "ride-body", ttl := IDEMPOTENCY_TTL }] "K2"
     (.failure 404 "other")).1 "ride-body" rfl⟩

/-! ## Claim C10: the geo index and the 60 s freshness key
(driver.service.js, utils/redis.js, matching.service.js) -/

/-- A member entry of the drivers:geo sorted set. -/
structure GeoEntry where
  longitude : ℚ
  latitude : ℚ
deriving DecidableEq

/-- The plain Redis keys written by the driver registry: the cached driver
row, the cached driver status, and the per-driver freshness key
drivers:geo:id that updateLocation passes to EXPIRE. -/
inductive CacheKey
  | driver (id : String)
  | driverStatus (id : String)
  | driverGeoFresh (id : String)
deriving DecidableEq

/-- The Redis state relevant to the driver registry: the drivers:geo sorted
set (member to coordinates) and the plain keys with their remaining TTL in
seconds. -/
structure RedisState where
  geo : List (String × GeoEntry)
  kv : List (CacheKey × Nat)
deriving DecidableEq

/-- Lookup of a member in an association list by its key. -/
def geoFind (g : List (String × GeoEntry)) (member : String) : Option GeoEntry :=
  match g.find? (fun p => p.1 == member) with
  | some p => some p.2
  | none => none

/-- Lookup of a member of the drivers:geo sorted set. -/
def geoLookup (s : RedisState) (member : String) : Option GeoEntry :=
  geoFind s.geo member

/-- GEOADD: upsert of a member of the sorted set. -/
def geoAdd (s : RedisState) (member : String) (e : GeoEntry) : RedisState :=
  { s with geo := (member, e) :: s.geo.filter fun p => p.1 != member }

/-- ZREM: removal of a member of the sorted set. -/
def zRem (s : RedisState) (member : String) : RedisState :=
  { s with geo := s.geo.filter fun p => p.1 != member }

/-- Lookup of a plain key. -/
def kvLookup (s : RedisState) (k : CacheKey) : Option Nat :=
  match s.kv.find? (fun p => p.1 == k) with
  | some p => some p.2
  | none => none

/-- EXPIRE: sets a TTL on an existing key and does nothing when the key does
not exist. -/
def expire (s : RedisState) (k : CacheKey) (ttl : Nat) : RedisState :=
  if (s.kv.find? (fun p => p.1 == k)).isSome then
    { s with kv := s.kv.map fun p => if p.1 == k then (p.1, ttl) else p }
  else s

/-- SETEX: stores a key with a TTL. -/
def setEx (s : RedisState) (k : CacheKey) (ttl : Nat) : RedisState :=
  { s with kv := (k, ttl) :: s.kv.filter fun p => p.1 != k }

/-- DEL of a plain key. -/
def delKey (s : RedisState) (k : CacheKey) : RedisState :=
  { s with kv := s.kv.filter fun p => p.1 != k }

/-- Passage of dt seconds: plain keys whose TTL elapses are dropped, the rest
keep their remaining TTL; sorted-set members carry no TTL and are untouched. -/
def advanceTime (s : RedisState) (dt : Nat) : RedisState :=
  { s with kv := (s.kv.filter fun p => decide (dt < p.2)).map fun p => (p.1, p.2 - dt) }

/-- The columns of a drivers row used by the registry operations. -/
structure DbDriver where
  status : DriverStatus
  latitude : Option ℚ
  longitude : Option ℚ
deriving DecidableEq

/-- Lookup of a drivers row by id. -/
def dbLookup (drivers : List (String × DbDriver)) (id : String) : Option DbDriver :=
  match drivers.find? (fun p => p.1 == id) with
  | some p => some p.2
  | none => none

/-- Replacement of a drivers row by id. -/
def dbSet (drivers : List (String × DbDriver)) (id : String) (d : DbDriver) :
    List (String × DbDriver) :=
  drivers.map fun p => if p.1 == id then (p.1, d) else p

/-- The store rows and the Redis state together. -/
structure SysState where
  redis : RedisState
  drivers : List (String × DbDriver)
deriving DecidableEq

/-- CACHE_TTL.DRIVER_LOCATION of utils/redis.js. -/
def CACHE_TTL_DRIVER_LOCATION : Nat := 60

/-- CACHE_TTL.DRIVER_STATUS of utils/redis.js. -/
def CACHE_TTL_DRIVER_STATUS : Nat := 120

/-- The registry operations that touch the geo index, plus the passage of
time. The fire-and-forget store write of updateLocation may or may not land,
hence its Boolean argument. -/
inductive Op
  | updateLocation (id : String) (latitude longitude : ℚ) (dbWriteLands : Bool)
  | updateStatus (id : String) (target : DriverStatus)
  | deleteDriver (id : String)
  | timePasses (dt : Nat)
deriving DecidableEq

/-- One operation against the system state, as implemented by
driver.service.js and utils/redis.js: updateLocation upserts the geo member
and calls EXPIRE on the (never stored) freshness key drivers:geo:id, with an
asynchronous store write; updateStatus writes the status row, refreshes the
cached row and status keys, removes the geo member on OFFLINE and re-adds it
from the stored coordinates on AVAILABLE when both are truthy; deleteDriver
removes the geo member, deletes the cached keys and the row; timePasses only
ages the plain keys. -/
def applyOp (s : SysState) : Op → SysState
  | .updateLocation id lat lon dbWriteLands =>
      let r1 := geoAdd s.redis id { longitude := lon, latitude := lat }
      let r2 := expire r1 (.driverGeoFresh id) CACHE_TTL_DRIVER_LOCATION
      { redis := r2
        drivers :=
          if dbWriteLands then
            match dbLookup s.drivers id with
            | some d => dbSet s.drivers id { d with latitude := some lat, longitude := some lon }
            | none => s.drivers
          else s.drivers }
  | .updateStatus id target =>
      match dbLookup s.drivers id with
      | none => s
      | some d =>
          let d2 : DbDriver := { d with status := target }
          let r1 := setEx (setEx s.redis (.driver id) CACHE_TTL_DRIVER_STATUS)
            (.driverStatus id) CACHE_TTL_DRIVER_STATUS
          let r2 :=
            if target == .OFFLINE then zRem r1 id
            else
              match d2.latitude, d2.longitude with
              | some la, some lo =>
                  if target == .AVAILABLE && la != 0 && lo != 0 then
                    geoAdd r1 id { longitude := lo, latitude := la }
                  else r1
              | _, _ => r1
          { redis := r2, drivers := dbSet s.drivers id d2 }
  | .deleteDriver id =>
      let r1 := zRem s.redis id
      let r2 := delKey (delKey r1 (.driver id)) (.driverStatus id)
      { redis := r2, drivers := s.drivers.filter fun p => p.1 != id }
  | .timePasses dt => { s with redis := advanceTime s.redis dt }

/-- Sequential execution of a list of operations. -/
def runOps (s : SysState) : List Op → SysState
  | [] => s
  | op :: ops => runOps (applyOp s op) ops

/-- The operations that explicitly remove or rewrite the geo entry of driver
d outside the location fast path: an update_status to OFFLINE (removal) or to
AVAILABLE (re-insertion from the store row), and deletion of the driver. -/
def sweepsGeoOf (d : String) : Op → Bool
  | .updateStatus i t => i == d && (t == .OFFLINE || t == .AVAILABLE)
  | .deleteDriver i => i == d
  | _ => false

/-- The coordinates of the last location write for driver d along a list of
operations, starting from the given entry. -/
def lastLocWrite (d : String) (acc : Option GeoEntry) : List Op → Option GeoEntry
  | [] => acc
  | op :: ops =>
      match op with
      | .updateLocation i la lo _ =>
          lastLocWrite d (if i == d then some { longitude := lo, latitude := la } else acc) ops
      | _ => lastLocWrite d acc ops

/-- Planar squared distance in coordinate degrees between a geo member and a
pickup point. -/
def sqDist (e : GeoEntry) (lat lon : ℚ) : ℚ :=
  (e.latitude - lat) * (e.latitude - lat) + (e.longitude - lon) * (e.longitude - lon)

/-- match radius of matching.service.js. -/
def SEARCH_RADIUS_KM : ℚ := 5

/-- match limit of matching.service.js. -/
def MAX_DRIVERS : Nat := 5

/-- Insertion into a list sorted by ascending distance to the pickup point. -/
def insertByDist (lat lon : ℚ) (p : String × GeoEntry) :
    List (String × GeoEntry) → List (String × GeoEntry)
  | [] => [p]
  | q :: qs =>
      if sqDist p.2 lat lon < sqDist q.2 lat lon then p :: q :: qs
      else q :: insertByDist lat lon p qs

/-- Sorting by ascending distance to the pickup point. -/
def sortByDist (lat lon : ℚ) : List (String × GeoEntry) → List (String × GeoEntry)
  | [] => []
  | p :: ps => insertByDist lat lon p (sortByDist lat lon ps)

/-- findNearbyDrivers of matching.service.js: a single GEOSEARCH on the
drivers:geo sorted set, members within 5 km sorted by ascending distance and
limited to 5. It consults only the sorted set; no freshness key is read.
Distance over coordinate degrees uses the planar 111 km-per-degree
approximation used by the Redis mock of the repository, compared in squared
form. -/
def findNearbyDrivers (geo : List (String × GeoEntry)) (lat lon : ℚ) : List String :=
  ((sortByDist lat lon (geo.filter fun p =>
    decide (sqDist p.2 lat lon * 12321 ≤ SEARCH_RADIUS_KM * SEARCH_RADIUS_KM))).map
      Prod.fst).take MAX_DRIVERS

theorem find_filter_keyNe {α β : Type} [BEq α] [LawfulBEq α] {l : List (α × β)} {k k2 : α}
    (hne : (k == k2) = false) :
    (l.filter fun p => p.1 != k).find? (fun p => p.1 == k2)
      = l.find? (fun p => p.1 == k2) := by
  induction l with
  | nil => rfl
  | cons a l ih =>
      cases hk : (a.1 == k) with
      | true =>
          have h1 : a.1 = k := eq_of_beq hk
          have h2 : (a.1 == k2) = false := by
            rw [h1]
            exact hne
          have hb : (a.1 != k) = false := by simp [bne, hk]
          simp only [List.filter_cons, hb, Bool.false_eq_true, if_false, List.find?_cons, h2, ih]
      | false =>
          have hb : (a.1 != k) = true := by simp [bne, hk]
          simp only [List.filter_cons, hb, if_true, List.find?_cons]
          cases hx : (a.1 == k2) with
          | true => rfl
          | false => exact ih

theorem find_none_filter {α : Type} {p q : α → Bool} {l : List α}
    (h : l.find? p = none) : (l.filter q).find? p = none := by
  induction l with
  | nil => rfl
  | cons a l ih =>
      rw [List.find?_cons] at h
      cases hx : p a with
      | true => rw [hx] at h; exact absurd h (by simp)
      | false =>
          rw [hx] at h
          rw [List.filter_cons]
          cases hq : q a with
          | true =>
              simp only [if_true]
              rw [List.find?_cons, hx]
              exact ih h
          | false => simpa using ih h


theorem find_none_map_keyed {α β : Type} (p : α × β → Bool) (f : α × β → α × β)
    (hp : ∀ x, p (f x) = p x) {l : List (α × β)}
    (h : l.find? p = none) : (l.map f).find? p = none := by
  induction l with
  | nil => rfl
  | cons a l ih =>
      rw [List.find?_cons] at h
      cases hx : p a with
      | true => rw [hx] at h; exact absurd h (by simp)
      | false =>
          rw [hx] at h
          rw [List.map_cons, List.find?_cons, hp a, hx]
          exact ih h

theorem geoFind_geoAdd_self (s : RedisState) (m : String) (e : GeoEntry) :
    geoLookup (geoAdd s m e) m = some e := by
  rw [geoLookup, geoAdd, geoFind]
  simp [List.find?_cons]

theorem geoFind_geoAdd_ne (s : RedisState) (m : String) (e : GeoEntry) (d : String)
    (h : (m == d) = false) :
    geoLookup (geoAdd s m e) d = geoLookup s d := by
  rw [geoLookup, geoAdd, geoFind]
  simp only [List.find?_cons, h]
  rw [find_filter_keyNe h]
  rfl

theorem geoFind_zRem_ne (s : RedisState) (m : String) (d : String)
    (h : (m == d) = false) :
    geoLookup (zRem s m) d = geoLookup s d := by
  rw [geoLookup, zRem, geoFind]
  rw [find_filter_keyNe h]
  rfl

theorem kvLookup_eq_none_iff {s : RedisState} {k : CacheKey} :
    kvLookup s k = none ↔ s.kv.find? (fun p => p.1 == k) = none := by
  constructor
  · intro hn
    cases h : s.kv.find? (fun p => p.1 == k) with
    | none => rfl
    | some p =>
        rw [kvLookup, h] at hn
        exact absurd hn (by simp)
  · intro hf
    rw [kvLookup, hf]

theorem freshKey_setEx {s : RedisState} {k : CacheKey} {t : Nat} {j : CacheKey}
    (hk : (k == j) = false) (h : kvLookup s j = none) :
    kvLookup (setEx s k t) j = none := by
  rw [kvLookup_eq_none_iff] at h ⊢
  show (((k, t) :: s.kv.filter fun p => p.1 != k).find? fun p => p.1 == j) = none
  simp only [List.find?_cons, hk]
  rw [find_filter_keyNe hk]
  exact h

theorem freshKey_delKey {s : RedisState} {k : CacheKey} {j : CacheKey}
    (h : kvLookup s j = none) : kvLookup (delKey s k) j = none := by
  rw [kvLookup_eq_none_iff] at h ⊢
  exact find_none_filter h

theorem freshKey_advanceTime {s : RedisState} {dt : Nat} {j : CacheKey}
    (h : kvLookup s j = none) : kvLookup (advanceTime s dt) j = none := by
  rw [kvLookup_eq_none_iff] at h ⊢
  exact find_none_map_keyed (fun q => q.1 == j) (fun q => (q.1, q.2 - dt))
    (fun x => rfl) (find_none_filter h)

theorem expire_absent {r : RedisState} {k : CacheKey} {t : Nat}
    (h : kvLookup r k = none) : expire r k t = r := by
  have hf : r.kv.find? (fun p => p.1 == k) = none := kvLookup_eq_none_iff.mp h
  rw [expire, hf]
  simp

theorem driver_beq_fresh (a b : String) :
    (CacheKey.driver a == CacheKey.driverGeoFresh b) = false := by
  simp

theorem driverStatus_beq_fresh (a b : String) :
    (CacheKey.driverStatus a == CacheKey.driverGeoFresh b) = false := by
  simp

theorem geo_expire (s : RedisState) (k : CacheKey) (t : Nat) :
    (expire s k t).geo = s.geo := by
  rw [expire]
  split <;> rfl

theorem freshKeys_applyOp (s : SysState) (op : Op)
    (h : ∀ i, kvLookup s.redis (CacheKey.driverGeoFresh i) = none) :
    ∀ i, kvLookup (applyOp s op).redis (CacheKey.driverGeoFresh i) = none := by
  intro i
  cases op with
  | updateLocation id lat lon b =>
      have hab : kvLookup (geoAdd s.redis id { longitude := lon, latitude := lat })
          (CacheKey.driverGeoFresh id) = none := h id
      show kvLookup (expire (geoAdd s.redis id { longitude := lon, latitude := lat })
        (CacheKey.driverGeoFresh id) CACHE_TTL_DRIVER_LOCATION) (CacheKey.driverGeoFresh i) = none
      rw [expire_absent hab]
      exact h i
  | updateStatus id target =>
      show kvLookup (applyOp s (Op.updateStatus id target)).redis
        (CacheKey.driverGeoFresh i) = none
      rw [applyOp]
      cases hdb : dbLookup s.drivers id with
      | none => exact h i
      | some drow =>
          have h1 : kvLookup (setEx (setEx s.redis (CacheKey.driver id) CACHE_TTL_DRIVER_STATUS)
              (CacheKey.driverStatus id) CACHE_TTL_DRIVER_STATUS)
              (CacheKey.driverGeoFresh i) = none :=
            freshKey_setEx (driverStatus_beq_fresh id i)
              (freshKey_setEx (driver_beq_fresh id i) (h i))
          cases ht : (target == DriverStatus.OFFLINE) with
          | true =>
              simp only [ht, if_true]
              exact h1
          | false =>
              simp only [ht, Bool.false_eq_true, if_false]
              cases hla : drow.latitude with
              | none => exact h1
              | some la =>
                  cases hlo : drow.longitude with
                  | none => exact h1
                  | some lo =>
                      cases hc : (target == DriverStatus.AVAILABLE && la != 0 && lo != 0) with
                      | true =>
                          simp only [hc, if_true]
                          exact h1
                      | false =>
                          simp only [hc, Bool.false_eq_true, if_false]
                          exact h1
  | deleteDriver id =>
      exact freshKey_delKey (freshKey_delKey (h i))
  | timePasses dt =>
      exact freshKey_advanceTime (h i)

theorem freshKeys_runOps (ops : List Op) (s : SysState)
    (h : ∀ i, kvLookup s.redis (CacheKey.driverGeoFresh i) = none) :
    ∀ i, kvLookup (runOps s ops).redis (CacheKey.driverGeoFresh i) = none := by
  induction ops generalizing s with
  | nil => exact h
  | cons op ops ih => exact ih (applyOp s op) (freshKeys_applyOp s op h)

theorem not_sweeps_status_ne {i d : String} {t : DriverStatus}
    (h : sweepsGeoOf d (.updateStatus i t) = false)
    (ht : (t == DriverStatus.OFFLINE) = true ∨ (t == DriverStatus.AVAILABLE) = true) :
    (i == d) = false := by
  rw [sweepsGeoOf] at h
  cases hi : (i == d) with
  | false => rfl
  | true =>
      rw [hi] at h
      rcases ht with ht | ht <;> rw [ht] at h <;> simp at h

theorem geoLookup_applyOp_of_not_sweeps (s : SysState) (op : Op) (d : String)
    (h : sweepsGeoOf d op = false) :
    geoLookup (applyOp s op).redis d =
      (match op with
       | .updateLocation i la lo _ =>
           if i == d then some { longitude := lo, latitude := la } else geoLookup s.redis d
       | _ => geoLookup s.redis d) := by
  cases op with
  | updateLocation i la lo b =>
      have hgeo : geoLookup (applyOp s (.updateLocation i la lo b)).redis d
          = geoLookup (geoAdd s.redis i { longitude := lo, latitude := la }) d := by
        show geoLookup (expire (geoAdd s.redis i { longitude := lo, latitude := la })
          (CacheKey.driverGeoFresh i) CACHE_TTL_DRIVER_LOCATION) d = _
        rw [geoLookup, geo_expire]
        rfl
      rw [hgeo]
      show geoLookup (geoAdd s.redis i { longitude := lo, latitude := la }) d
        = if i == d then some { longitude := lo, latitude := la } else geoLookup s.redis d
      cases hid : (i == d) with
      | true =>
          rw [if_pos rfl]
          have hEq : i = d := eq_of_beq hid
          subst hEq
          exact geoFind_geoAdd_self s.redis i { longitude := lo, latitude := la }
      | false =>
          rw [if_neg Bool.false_ne_true]
          exact geoFind_geoAdd_ne s.redis i { longitude := lo, latitude := la } d hid
  | updateStatus i t =>
      show geoLookup (applyOp s (Op.updateStatus i t)).redis d = geoLookup s.redis d
      rw [applyOp]
      cases hdb : dbLookup s.drivers i with
      | none => rfl
      | some drow =>
          cases ht : (t == DriverStatus.OFFLINE) with
          | true =>
              have hid : (i == d) = false := not_sweeps_status_ne h (Or.inl ht)
              simp only [ht, if_true]
              exact geoFind_zRem_ne _ i d hid
          | false =>
              simp only [ht, Bool.false_eq_true, if_false]
              cases hla : drow.latitude with
              | none => rfl
              | some la =>
                  cases hlo : drow.longitude with
                  | none => rfl
                  | some lo =>
                      cases hc : (t == DriverStatus.AVAILABLE && la != 0 && lo != 0) with
                      | true =>
                          have hav : (t == DriverStatus.AVAILABLE) = true := by
                            rcases Bool.and_eq_true_iff.mp hc with ⟨h1, _⟩
                            rcases Bool.and_eq_true_iff.mp h1 with ⟨h2, _⟩
                            exact h2
                          have hid : (i == d) = false := not_sweeps_status_ne h (Or.inr hav)
                          simp only [hc, if_true]
                          exact geoFind_geoAdd_ne _ i { longitude := lo, latitude := la } d hid
                      | false =>
                          simp only [hc, Bool.false_eq_true, if_false]
                          rfl
  | deleteDriver i =>
      rw [sweepsGeoOf] at h
      exact geoFind_zRem_ne s.redis i d h
  | timePasses dt => rfl

theorem geoLookup_runOps (d : String) (ops : List Op) (s : SysState)
    (h : ∀ op ∈ ops, sweepsGeoOf d op = false) :
    geoLookup (runOps s ops).redis d = lastLocWrite d (geoLookup s.redis d) ops := by
  induction ops generalizing s with
  | nil => rfl
  | cons op ops ih =>
      have hop : sweepsGeoOf d op = false := h op (List.mem_cons_self op ops)
      have hrest : ∀ o ∈ ops, sweepsGeoOf d o = false :=
        fun o ho => h o (List.mem_cons_of_mem op ho)
      have hstep := geoLookup_applyOp_of_not_sweeps s op d hop
      cases op with
      | updateLocation i la lo b =>
          show geoLookup (runOps (applyOp s (Op.updateLocation i la lo b)) ops).redis d
            = lastLocWrite d
                (if i == d then some { longitude := lo, latitude := la }
                 else geoLookup s.redis d) ops
          rw [ih _ hrest, hstep]
      | updateStatus i t =>
          show geoLookup (runOps (applyOp s (Op.updateStatus i t)) ops).redis d
            = lastLocWrite d (geoLookup s.redis d) ops
          rw [ih _ hrest, hstep]
      | deleteDriver i =>
          show geoLookup (runOps (applyOp s (Op.deleteDriver i)) ops).redis d
            = lastLocWrite d (geoLookup s.redis d) ops
          rw [ih _ hrest, hstep]
      | timePasses dt =>
          show geoLookup (runOps (applyOp s (Op.timePasses dt)) ops).redis d
            = lastLocWrite d (geoLookup s.redis d) ops
          rw [ih _ hrest, hstep]

/-- Claim C10: no operation removes or expires a geo entry on account of age.
The freshness key drivers:geo:id that updateLocation passes to EXPIRE is
never created as a stored key (EXPIRE does not create keys, and no write
targets that key), find_nearby reads only the sorted set, and along any
sequence of operations that contains no update_status of driver d to OFFLINE
or AVAILABLE and no deletion of d — location updates, status changes of other
drivers, transitions of d to ON_TRIP and arbitrary passage of time are all
allowed — the geo entry of d afterwards holds the coordinates of the last
location write (its initial entry when none occurs). -/
theorem C10_theorem (s : SysState) (ops : List Op) (d j : String)
    (h2 : ∀ op ∈ ops, sweepsGeoOf d op = false)
    (h3 : ∀ i, kvLookup s.redis (CacheKey.driverGeoFresh i) = none) :
    geoLookup (runOps s ops).redis d = lastLocWrite d (geoLookup s.redis d) ops ∧
    kvLookup (runOps s ops).redis (CacheKey.driverGeoFresh j) = none :=
  ⟨geoLookup_runOps d ops s h2, freshKeys_runOps ops s h3 j⟩

/-- The coordinates written by the single location update of the witness. -/
def geoW : GeoEntry := { longitude := -122.4194, latitude := 37.7749 }

/-- A system with one AVAILABLE driver and an empty Redis. -/
def sysW : SysState :=
  { redis := { geo := [], kv := [] }
    drivers := [("d1",
      { status := .AVAILABLE, latitude := some 37.7749, longitude := some (-122.4194) })] }

/-- A location update followed by an hour of idleness, a transition to
ON_TRIP, and a further day of idleness. -/
def opsW : List Op :=
  [ .updateLocation "d1" 37.7749 (-122.4194) true
  , .timePasses 3600
  , .updateStatus "d1" .ON_TRIP
  , .timePasses 86400 ]

/-- Claim C10 witness: after a location write, an hour of idleness, a
transition to ON_TRIP and a further day, the driver is still in the geo index
at the written coordinates and the freshness key still does not exist. -/
theorem C10_witness :
    geoLookup (runOps sysW opsW).redis "d1" = some geoW ∧
    kvLookup (runOps sysW opsW).redis (CacheKey.driverGeoFresh "d1") = none := by
  have h := C10_theorem sysW opsW "d1" "d1" (by decide) (fun i => rfl)
  exact ⟨h.1.trans (by rfl), h.2⟩

end RideHailing
